import Mathlib

/-!
# Verification of the SIMPA optical forward-model stage

This file shallowly embeds the optical-stage logic of the SIMPA pipeline:

* `simpa/core/device_digital_twins/illumination_geometries/pencil_beam_illumination.py`
  (`PencilBeamIlluminationGeometry.get_mcx_illuminator_definition`),
* `simpa/utils/quality_assurance/data_sanity_testing.py`
  (`assert_equal_shapes`, `assert_array_well_defined`),
* `simpa/core/simulation_modules/optical_simulation_module/optical_forward_model_mcx_adapter.py`
  (`MCXAdapter.get_mcx_config`, `parse_pmcx_results`, `volumes_to_mm`, `forward_model`),
* `simpa/core/optical_simulation/optical_modelling.py` (`run_optical_forward_model`).

Conventions of the embedding:

* numpy arrays are modelled as a shape (list of dimensions) together with a flat
  list of rational entries (`NpArray`); elementwise numpy arithmetic becomes
  `List.map` / `List.zipWith`;
* Python floats are modelled by `ℚ` where the code never produces non-finite
  values, and by the four-constructor type `FVal` (finite / nan / inf / -inf)
  where finiteness itself is what a function inspects;
* functions that can raise are modelled in `Except`, with the error value
  recording which Python exception is raised;
* external collaborators (the pmcx engine, the HDF5 store) are parameters of
  the embedded functions, and the observable side effects of
  `run_optical_forward_model` are recorded in an explicit event trace;
* tag constants from `simpa/utils/tags.py` (a file that only provides string
  identifiers) are modelled as distinct string constants.
-/

namespace Simpa

/-- A numpy `ndarray`: a shape together with the row-major flattened data. -/
structure NpArray where
  shape : List Nat
  data : List ℚ
deriving Repr, DecidableEq

/-! ## Tag constants (string identifiers from `simpa/utils/tags.py`) -/

/-- `Tags.ILLUMINATION_TYPE_PENCILARRAY`. -/
def ILLUMINATION_TYPE_PENCILARRAY : String := "pencilarray"

/-- `Tags.OPTICAL_MODEL_MCXYZ` (CPU reference engine selector). -/
def OPTICAL_MODEL_MCXYZ : String := "mcxyz"

/-- `Tags.OPTICAL_MODEL_MCX` (GPU Monte-Carlo engine selector). -/
def OPTICAL_MODEL_MCX : String := "mcx"

/-- `Tags.OPTICAL_MODEL_TEST` (test stub selector). -/
def OPTICAL_MODEL_TEST : String := "test"

/-! ## Pencil beam illumination geometry

Embeds `PencilBeamIlluminationGeometry.get_mcx_illuminator_definition` from
`pencil_beam_illumination.py`.  The Python body performs no validation and
has no `raise` statement; the `Except` codomain records that the only possible
outcome is `Except.ok`.
-/

/-- The scalar millimeter-to-voxel conversion `position_mm / spacing + 0.5`
applied by `get_mcx_illuminator_definition` to each coordinate. -/
def to_voxel (p s : ℚ) : ℚ := p / s + 1/2

/-- The source descriptor dict returned by `get_mcx_illuminator_definition`. -/
structure IlluminatorDefinition where
  sourceType : String
  pos : List ℚ
  dir : List ℚ
  param1 : List ℚ
  param2 : List ℚ
deriving Repr, DecidableEq

/-- Global settings as read by the pencil beam geometry: `Tags.SPACING_MM`. -/
structure GeometrySettings where
  spacing_mm : ℚ
deriving Repr, DecidableEq

/-- `PencilBeamIlluminationGeometry.get_mcx_illuminator_definition`.
The numpy expression `probe_position_mm / spacing + 0.5` broadcasts over the
coordinates, i.e. applies `to_voxel` componentwise.  The body contains no
check of `spacing` and no `raise`; every input produces an `ok` result. -/
def get_mcx_illuminator_definition (global_settings : GeometrySettings)
    (probe_position_mm : List ℚ) : Except String IlluminatorDefinition :=
  let source_type := ILLUMINATION_TYPE_PENCILARRAY
  let spacing := global_settings.spacing_mm
  let device_position := probe_position_mm.map (fun x => to_voxel x spacing)
  let source_direction : List ℚ := [0, 0, 1]
  let source_param1 : List ℚ := [0, 0, 0, 0]
  let source_param2 : List ℚ := [0, 0, 0, 0]
  Except.ok { sourceType := source_type, pos := device_position,
              dir := source_direction, param1 := source_param1,
              param2 := source_param2 }

/-! ## Data sanity testing

Embeds `assert_equal_shapes` and `assert_array_well_defined` from
`simpa/utils/quality_assurance/data_sanity_testing.py`.
-/

/-- The shape tuple of an array, cast to floats
(`np.asarray([...]).astype(float)` works on float matrices). -/
def shapeRow (a : NpArray) : List ℚ := a.shape.map (fun n => (n : ℚ))

/-- Componentwise sum of two equal-length vectors. -/
def vecAdd (xs ys : List ℚ) : List ℚ := List.zipWith (· + ·) xs ys

/-- Column sums of a list of rows of common length `r`
(`np.sum` over axis 0). -/
def axisSum (r : Nat) (rows : List (List ℚ)) : List ℚ :=
  rows.foldl vecAdd (List.replicate r 0)

/-- `np.mean(shapes, axis=0)` over a rectangular matrix of `n` rows of
length `r`. -/
def axisMean (r : Nat) (rows : List (List ℚ)) : List ℚ :=
  (axisSum r rows).map (fun x => x / (rows.length : ℚ))

/-- `sum over a row of |shape[i,j] - mean[j]|`. -/
def absDevSum (row mean : List ℚ) : ℚ :=
  (List.zipWith (fun x m => |x - m|) row mean).sum

/-- `assert_equal_shapes(numpy_arrays)`.

Returns immediately when fewer than two arrays are given.  Otherwise it
builds the matrix of shapes (`np.asarray` requires all shape tuples to have
the same length, i.e. all arrays the same rank; a ragged list raises a
numpy error), subtracts the columnwise mean from every row, and raises an
`AssertionError` unless the summed absolute deviation is at most `1e-5`. -/
def assert_equal_shapes (numpy_arrays : List NpArray) : Except String Unit :=
  if numpy_arrays.length < 2 then Except.ok ()
  else
    let shapes := numpy_arrays.map shapeRow
    let rank := (shapes.headD []).length
    if shapes.all (fun s => s.length = rank) then
      let mean := axisMean rank shapes
      let deviation := (shapes.map (fun row => absDevSum row mean)).sum
      if deviation ≤ 1/100000 then Except.ok ()
      else Except.error ("The given volumes did not all have the same" ++
        " dimensions. Please double check the simulation" ++
        " parameters. Called from <caller>")
    else Except.error "setting an array element with a sequence"

/-- A tensor entry: a finite rational, or one of the non-finite IEEE values
`nan`, `inf`, `-inf` that `torch.isfinite` rejects. -/
inductive FVal where
  | fin (q : ℚ)
  | nan
  | inf
  | neginf
deriving Repr, DecidableEq

/-- `torch.isfinite` on a single entry. -/
def FVal.isFinite : FVal → Bool
  | .fin _ => true
  | _ => false

/-- `v <= 0` with IEEE comparison semantics (`nan` compares false). -/
def FVal.leZero : FVal → Bool
  | .fin q => decide (q ≤ 0)
  | .nan => false
  | .inf => false
  | .neginf => true

/-- `v < 0` with IEEE comparison semantics (`nan` compares false). -/
def FVal.ltZero : FVal → Bool
  | .fin q => decide (q < 0)
  | .nan => false
  | .inf => false
  | .neginf => true

/-- `assert_array_well_defined(array, assume_non_negativity,
assume_positivity, array_name)`.

Mirrors the Python control flow: an `error_message` variable starts at
`None`, is set to `"nan, inf or -inf"` when any entry is non-finite, then
possibly overwritten by the positivity / non-negativity checks, and an
`AssertionError` carrying the array name is raised when it is set.  The
caller/line fields of the message come from runtime stack introspection and
are modelled by a fixed placeholder. -/
def assert_array_well_defined (array : List FVal)
    (assume_non_negativity : Bool := false) (assume_positivity : Bool := false)
    (array_name : Option String := none) : Except String Unit :=
  let em0 : Option String := none
  let em1 := if !(array.all FVal.isFinite) then some "nan, inf or -inf" else em0
  let em2 := if assume_positivity && array.any FVal.leZero then some "not positive" else em1
  let em3 := if assume_non_negativity && array.any FVal.ltZero then some "negative" else em2
  match em3 with
  | none => Except.ok ()
  | some error_message =>
    let name := array_name.getD "'Not specified'"
    Except.error ("The given array contained values that were " ++ error_message ++
      ". Info:  \n\tArray Name: " ++ (name ++ " \n\tCaller: <stack>."))

/-! ## MCX adapter

Embeds `MCXAdapter` from
`simpa/core/simulation_modules/optical_simulation_module/optical_forward_model_mcx_adapter.py`.
The pmcx engine (`pmcx.run`) is an external collaborator and is passed as a
function parameter; the illumination geometry's descriptor is passed as the
already-computed `IlluminatorDefinition` value.
-/

/-- The component settings keys read by `MCXAdapter`:
`Tags.OPTICAL_MODEL_NUMBER_PHOTONS`, `Tags.TIME_STEP`, `Tags.TOTAL_TIME`,
`Tags.MCX_SEED`.  Optional keys are `Option`-valued (`none` = key absent). -/
structure McxComponentSettings where
  number_photons : Nat
  time_step : Option ℚ
  total_time : Option ℚ
  mcx_seed : Option Nat
deriving Repr, DecidableEq

/-- The global settings keys read by `MCXAdapter`: `Tags.SPACING_MM`,
`Tags.RANDOM_SEED`. -/
structure McxGlobalSettings where
  spacing_mm : ℚ
  random_seed : Option Nat
deriving Repr, DecidableEq

/-- The pmcx configuration dict assembled by `get_mcx_config`. -/
structure McxConfig where
  nphoton : Nat
  vol : NpArray
  tstart : ℚ
  tend : ℚ
  tstep : ℚ
  prop : List (List ℚ)
  unitinmm : ℚ
  srctype : String
  srcpos : List ℚ
  srcdir : List ℚ
  srcparam1 : List ℚ
  srcparam2 : List ℚ
  isreflect : Nat
  autopilot : Nat
  outputtype : String
  seed : Option Nat
deriving Repr, DecidableEq

/-- Python `int(x)`: truncation towards zero. -/
def pyInt (x : ℚ) : ℤ := if 0 ≤ x then ⌊x⌋ else ⌈x⌉

/-- `np.stack(arrays)` along a new leading axis: requires every array to have
the same shape (otherwise numpy raises
`ValueError: all input arrays must have the same shape`). -/
def npStack (arrays : List NpArray) : Except String NpArray :=
  match arrays with
  | [] => Except.error "need at least one array to stack"
  | a :: rest =>
    if rest.all (fun b => b.shape = a.shape) then
      Except.ok ⟨(a :: rest).length :: a.shape, ((a :: rest).map NpArray.data).flatten⟩
    else Except.error "all input arrays must have the same shape"

/-- `MCXAdapter.volumes_to_mm`: divides absorption and scattering by 10
(per-centimeter to per-millimeter) and passes anisotropy and refractive
index through unchanged. -/
def volumes_to_mm (absorption_cm scattering_cm anisotropy refractive_index : NpArray) :
    NpArray × NpArray × NpArray × NpArray :=
  let absorption_mm : NpArray := ⟨absorption_cm.shape, absorption_cm.data.map (fun x => x / 10)⟩
  let scattering_mm : NpArray := ⟨scattering_cm.shape, scattering_cm.data.map (fun x => x / 10)⟩
  (absorption_mm, scattering_mm, anisotropy, refractive_index)

/-- `MCXAdapter.pre_process_volumes`: delegates to `volumes_to_mm`. -/
def pre_process_volumes (absorption_cm scattering_cm anisotropy refractive_index : NpArray) :
    NpArray × NpArray × NpArray × NpArray :=
  volumes_to_mm absorption_cm scattering_cm anisotropy refractive_index

/-- `MCXAdapter.get_mcx_config`, returning the config dict together with the
derived `self.frames` value.

The Python timing condition reads
`if Tags.TIME_STEP and Tags.TOTAL_TIME in self.component_settings:`;
`Tags.TIME_STEP` is a truthy constant, so by Python operator precedence the
condition tests only whether `Tags.TOTAL_TIME` is present.  When it is, the
subsequent read of `Tags.TIME_STEP` raises a `KeyError` if that key is
absent.  The frame computation `self.frames = int(time / dt)` raises a
`ZeroDivisionError` when the supplied time step is zero. -/
def get_mcx_config (global_settings : McxGlobalSettings)
    (component_settings : McxComponentSettings) (source : IlluminatorDefinition)
    (absorption_cm scattering_cm anisotropy refractive_index : NpArray) :
    Except String (McxConfig × ℤ) :=
  let (absorption_mm, scattering_mm, anisotropy, refractive_index) :=
    pre_process_volumes absorption_cm scattering_cm anisotropy refractive_index
  match npStack [absorption_mm, scattering_mm, anisotropy, refractive_index] with
  | Except.error e => Except.error e
  | Except.ok vol =>
    let prop : List (List ℚ) := [[0, 0, 1, 1]]
    let timing : Except String (ℚ × ℚ) :=
      match component_settings.total_time with
      | some total =>
        match component_settings.time_step with
        | some dt => Except.ok (dt, total)
        | none => Except.error "KeyError: Tags.TIME_STEP"
      | none => Except.ok (5/1000000000, 5/1000000000)
    match timing with
    | Except.error e => Except.error e
    | Except.ok (dt, time) =>
      if dt = 0 then Except.error "ZeroDivisionError: float division by zero"
      else
      let frames := pyInt (time / dt)
      let seed : Option Nat :=
        match component_settings.mcx_seed with
        | none => global_settings.random_seed
        | some s => some s
      Except.ok ({ nphoton := component_settings.number_photons, vol := vol,
                   tstart := 0, tend := time, tstep := dt, prop := prop,
                   unitinmm := global_settings.spacing_mm,
                   srctype := source.sourceType, srcpos := source.pos,
                   srcdir := source.dir, srcparam1 := source.param1,
                   srcparam2 := source.param2, isreflect := 1, autopilot := 1,
                   outputtype := "fluence", seed := seed }, frames)

/-- `MCXAdapter.parse_pmcx_results` applied to the `"flux"` entry of the
pmcx result dict: multiplies the flux by 100 (J/mm² to J/cm²) and squeezes
axis 3 exactly when that axis has extent 1.  `np.shape(fluence)[3]` raises
an `IndexError` when the array has fewer than four axes.
`post_process_volumes` is the identity in this adapter. -/
def parse_pmcx_results (flux : NpArray) : Except String NpArray :=
  let fluence : NpArray := ⟨flux.shape, flux.data.map (fun x => x * 100)⟩
  match fluence.shape.get? 3 with
  | none => Except.error "IndexError: tuple index out of range"
  | some k =>
    Except.ok (if k = 1 then ⟨fluence.shape.eraseIdx 3, fluence.data⟩ else fluence)

/-- `MCXAdapter.forward_model`: builds the config, runs the engine on it, and
parses the results.  `engine` models `pmcx.run(config)["flux"]`. -/
def forward_model (engine : McxConfig → NpArray)
    (global_settings : McxGlobalSettings) (component_settings : McxComponentSettings)
    (source : IlluminatorDefinition)
    (absorption_cm scattering_cm anisotropy refractive_index : NpArray) :
    Except String NpArray :=
  match get_mcx_config global_settings component_settings source
      absorption_cm scattering_cm anisotropy refractive_index with
  | Except.error e => Except.error e
  | Except.ok (config, _) => parse_pmcx_results (engine config)

/-! ## Optical modelling entry point

Embeds `run_optical_forward_model` from
`simpa/core/optical_simulation/optical_modelling.py`.  The adapters and the
HDF5 store are external collaborators: the fluence produced by the selected
adapter is given by the parameter `simulateFluence`, and the absorption and
Grüneisen fields loaded from the store are parameters.  Arrays here are the
flat elementwise view (`List ℚ`), since the function only combines
co-registered fields pointwise.  The observable steps performed before a
result or exception are recorded in an event trace.
-/

/-- The unit-mode tag written next to the optical output:
`Tags.UNITS_PRESSURE` / `Tags.UNITS_ARBITRARY`. -/
inductive UnitMode where
  | PHYSICAL_PRESSURE_PA
  | ARBITRARY
deriving Repr, DecidableEq

/-- The three adapters `run_optical_forward_model` can construct. -/
inductive OpticalAdapter where
  | mcxyz
  | mcx
  | test
deriving Repr, DecidableEq

/-- Observable steps of `run_optical_forward_model`, in program order:
deriving the persistence path (`generate_dict_path`), invoking the selected
adapter (`forward_model_implementation.simulate`), loading the optical
properties (`load_hdf5`), and writing the output (`save_hdf5`). -/
inductive OptEvent where
  | path_derivation
  | adapter_simulate (a : OpticalAdapter)
  | persistence_read
  | persistence_write
deriving Repr, DecidableEq

/-- Exceptions `run_optical_forward_model` can raise: the explicit
`AssertionError` for a missing model tag, and the `AttributeError` hit when
`simulate` is called on the `None` left by an unrecognized model tag. -/
inductive OptErrorKind where
  | assertionError (message : String)
  | attributeError
deriving Repr, DecidableEq

/-- The settings keys read by `run_optical_forward_model`:
`Tags.OPTICAL_MODEL`, `Tags.PERFORM_UPSAMPLING`,
`Tags.LASER_PULSE_ENERGY_IN_MILLIJOULE` (`none` = key absent). -/
structure OpticalSettings where
  optical_model : Option String
  perform_upsampling : Option Bool
  laser_pulse_energy_in_millijoule : Option ℚ
deriving Repr, DecidableEq

/-- Elementwise product of two co-registered fields. -/
def npMul (xs ys : List ℚ) : List ℚ := List.zipWith (· * ·) xs ys

/-- Elementwise product of a field with a scalar. -/
def npScale (c : ℚ) (xs : List ℚ) : List ℚ := xs.map (fun x => x * c)

/-- `run_optical_forward_model(settings)`.

On success, returns the event trace together with the
`(fluence, initial_pressure, units)` triple written to the store; on an
exception, returns the events that completed before it together with the
exception kind. -/
def run_optical_forward_model (simulateFluence : OpticalAdapter → List ℚ)
    (absorption gruneisen_parameter : List ℚ) (settings : OpticalSettings) :
    Except (List OptEvent × OptErrorKind) (List OptEvent × List ℚ × List ℚ × UnitMode) :=
  match settings.optical_model with
  | none => Except.error ([], OptErrorKind.assertionError
      "Tags.OPTICAL_MODEL tag was not specified in the settings. Skipping optical modelling.")
  | some model =>
    let forward_model_implementation : Option OpticalAdapter :=
      if model = OPTICAL_MODEL_MCXYZ then some OpticalAdapter.mcxyz
      else if model = OPTICAL_MODEL_MCX then some OpticalAdapter.mcx
      else if model = OPTICAL_MODEL_TEST then some OpticalAdapter.test
      else none
    -- optical_properties_path = generate_dict_path(...)
    let trace0 : List OptEvent := [OptEvent.path_derivation]
    match forward_model_implementation with
    | none => Except.error (trace0, OptErrorKind.attributeError)
    | some impl =>
      let fluence := simulateFluence impl
      let trace1 := trace0 ++ [OptEvent.adapter_simulate impl, OptEvent.persistence_read]
      let initial_pressure := npMul absorption fluence
      if settings.perform_upsampling = none ∨ settings.perform_upsampling = some false then
        match settings.laser_pulse_energy_in_millijoule with
        | some energy =>
          let conversion_factor : ℚ := 1000000
          let initial_pressure :=
            npScale conversion_factor (npScale (energy / 1000)
              (npMul (npMul absorption fluence) gruneisen_parameter))
          Except.ok (trace1 ++ [OptEvent.persistence_write], fluence,
                     initial_pressure, UnitMode.PHYSICAL_PRESSURE_PA)
        | none =>
          Except.ok (trace1 ++ [OptEvent.persistence_write], fluence,
                     npMul absorption fluence, UnitMode.ARBITRARY)
      else
        Except.ok (trace1 ++ [OptEvent.persistence_write], fluence,
                   initial_pressure, UnitMode.ARBITRARY)

/-- Modelled from the spec: the per-millimeter to per-centimeter scaling used
only to state the round-trip property, defined by the spec's testable
property as to_cm(x) = x * 10. -/
def to_cm (a : NpArray) : NpArray := ⟨a.shape, a.data.map (fun x => x * 10)⟩

/-! ## Theorems -/

/-- C5: for every probe position p (mm) and positive spacing s, the pencil
beam converter returns the voxel-space position p/s + 0.5 componentwise,
which is strictly monotone in p for fixed s; the direction is the constant
[0, 0, 1] and both shape-parameter vectors are all zeros. -/
theorem pencil_beam_voxel_position_spec (s : ℚ) (p : List ℚ) (hs : 0 < s) :
    get_mcx_illuminator_definition ⟨s⟩ p =
      Except.ok { sourceType := ILLUMINATION_TYPE_PENCILARRAY,
                  pos := p.map (fun x => x / s + 1/2),
                  dir := [0, 0, 1], param1 := [0, 0, 0, 0], param2 := [0, 0, 0, 0] }
    ∧ StrictMono (fun x : ℚ => to_voxel x s) := by
  refine ⟨rfl, fun a b hab => ?_⟩
  simpa [to_voxel] using add_lt_add_right ((div_lt_div_iff_of_pos_right hs).mpr hab) (1/2 : ℚ)

/-- Witness for C5 at spacing 2 and position [1, 2, 3]. -/
theorem pencil_beam_voxel_position_spec_witness :
    (0 : ℚ) < 2 ∧
    (get_mcx_illuminator_definition ⟨2⟩ [1, 2, 3] =
      Except.ok { sourceType := ILLUMINATION_TYPE_PENCILARRAY,
                  pos := [1, 2, 3].map (fun x => x / 2 + 1/2),
                  dir := [0, 0, 1], param1 := [0, 0, 0, 0], param2 := [0, 0, 0, 0] }
     ∧ StrictMono (fun x : ℚ => to_voxel x 2)) :=
  ⟨by norm_num, pencil_beam_voxel_position_spec 2 [1, 2, 3] (by norm_num)⟩

/-- C1 counterexample: at the non-positive spacing -1 the converter does not
fail fast with a configuration error; it returns a source position. -/
theorem pencil_beam_spacing_not_validated_cex :
    ((-1 : ℚ) ≤ 0) ∧
    get_mcx_illuminator_definition ⟨-1⟩ [1, 2, 3] =
      Except.ok { sourceType := ILLUMINATION_TYPE_PENCILARRAY,
                  pos := [-1/2, -3/2, -5/2],
                  dir := [0, 0, 1], param1 := [0, 0, 0, 0], param2 := [0, 0, 0, 0] } := by
  refine ⟨by norm_num, ?_⟩
  simp only [get_mcx_illuminator_definition, to_voxel, List.map]
  norm_num

/-- C1 amended: the converter performs no spacing validation at all; for
every probe position and every nonzero spacing (negative included) it
returns, without any error, the source position p/s + 0.5. -/
theorem pencil_beam_no_spacing_validation (p : List ℚ) (s : ℚ) (hs : s ≠ 0) :
    get_mcx_illuminator_definition ⟨s⟩ p =
      Except.ok { sourceType := ILLUMINATION_TYPE_PENCILARRAY,
                  pos := p.map (fun x => x / s + 1/2),
                  dir := [0, 0, 1], param1 := [0, 0, 0, 0], param2 := [0, 0, 0, 0] } := rfl

/-- Witness for the amended C1 at the negative spacing -2. -/
theorem pencil_beam_no_spacing_validation_witness :
    ((-2 : ℚ) ≠ 0) ∧
    get_mcx_illuminator_definition ⟨-2⟩ [1, 2, 3] =
      Except.ok { sourceType := ILLUMINATION_TYPE_PENCILARRAY,
                  pos := [1, 2, 3].map (fun x => x / (-2) + 1/2),
                  dir := [0, 0, 1], param1 := [0, 0, 0, 0], param2 := [0, 0, 0, 0] } :=
  ⟨by norm_num, pencil_beam_no_spacing_validation [1, 2, 3] (-2) (by norm_num)⟩

/-- C10: for every list of fewer than two arrays, `assert_equal_shapes`
returns without raising: shape agreement is vacuously accepted. -/
theorem assert_equal_shapes_vacuous_below_two (numpy_arrays : List NpArray)
    (h : numpy_arrays.length < 2) :
    assert_equal_shapes numpy_arrays = Except.ok () := by
  unfold assert_equal_shapes
  rw [if_pos h]

/-- Witness for C10 on a single-element list. -/
theorem assert_equal_shapes_vacuous_below_two_witness :
    ([⟨[4, 4, 4], List.replicate 64 0⟩] : List NpArray).length < 2 ∧
    assert_equal_shapes [⟨[4, 4, 4], List.replicate 64 0⟩] = Except.ok () :=
  ⟨by decide, assert_equal_shapes_vacuous_below_two [⟨[4, 4, 4], List.replicate 64 0⟩] (by decide)⟩

/-- C9: under default flags, `assert_array_well_defined` raises exactly when
the array contains a non-finite entry (NaN, +inf or -inf), and the raised
message identifies the offending field by the supplied array name. -/
theorem assert_array_well_defined_iff_nonfinite (array : List FVal) (name : String) :
    ((∃ e, assert_array_well_defined array false false (some name) = Except.error e) ↔
      (∃ v ∈ array, v.isFinite = false))
    ∧ (∀ e, assert_array_well_defined array false false (some name) = Except.error e →
        ∃ s₁ s₂, e = s₁ ++ (name ++ s₂)) := by
  by_cases h : array.all FVal.isFinite
  · have hok : assert_array_well_defined array false false (some name) = Except.ok () := by
      simp [assert_array_well_defined, h]
    constructor
    · constructor
      · rintro ⟨e, he⟩
        rw [hok] at he
        exact absurd he (by simp)
      · rintro ⟨v, hv, hfin⟩
        have := List.all_eq_true.mp h v hv
        rw [hfin] at this
        exact absurd this (by simp)
    · intro e he
      rw [hok] at he
      exact absurd he (by simp)
  · have hb : array.all FVal.isFinite = false := Bool.eq_false_iff.mpr h
    have herr : assert_array_well_defined array false false (some name) =
        Except.error ("The given array contained values that were " ++ "nan, inf or -inf" ++
          ". Info:  \n\tArray Name: " ++ (name ++ " \n\tCaller: <stack>.")) := by
      simp [assert_array_well_defined, hb]
    constructor
    · constructor
      · intro _
        obtain ⟨v, hv, hvf⟩ := by simpa [List.all_eq_true] using h
        exact ⟨v, hv, hvf⟩
      · intro _
        exact ⟨_, herr⟩
    · intro e he
      rw [herr] at he
      refine ⟨"The given array contained values that were " ++ "nan, inf or -inf" ++
        ". Info:  \n\tArray Name: ", " \n\tCaller: <stack>.", ?_⟩
      exact (Except.error.inj he).symm

/-- Witness for C9 on the singleton array [nan] named "absorption". -/
theorem assert_array_well_defined_iff_nonfinite_witness :
    (∃ v ∈ [FVal.nan], v.isFinite = false) ∧
    ∃ e, assert_array_well_defined [FVal.nan] false false (some "absorption") = Except.error e ∧
      ∃ s₁ s₂, e = s₁ ++ ("absorption" ++ s₂) := by
  have h := assert_array_well_defined_iff_nonfinite [FVal.nan] "absorption"
  refine ⟨by decide, ?_⟩
  obtain ⟨e, he⟩ := h.1.mpr (by decide)
  exact ⟨e, he, h.2 e he⟩

/-- C7: `volumes_to_mm` divides each absorption and scattering entry by 10,
and the round trip to_mm(to_cm(x)) with to_cm(x) = x * 10 returns x (exactly,
over the rationals). -/
theorem volumes_to_mm_div10_roundtrip
    (absorption_cm scattering_cm anisotropy refractive_index : NpArray) :
    (volumes_to_mm absorption_cm scattering_cm anisotropy refractive_index).1 =
        ⟨absorption_cm.shape, absorption_cm.data.map (fun x => x / 10)⟩
    ∧ (volumes_to_mm absorption_cm scattering_cm anisotropy refractive_index).2.1 =
        ⟨scattering_cm.shape, scattering_cm.data.map (fun x => x / 10)⟩
    ∧ (volumes_to_mm (to_cm absorption_cm) (to_cm scattering_cm) anisotropy refractive_index).1 =
        absorption_cm
    ∧ (volumes_to_mm (to_cm absorption_cm) (to_cm scattering_cm) anisotropy refractive_index).2.1 =
        scattering_cm := by
  have hround : ∀ l : List ℚ, (l.map (fun x => x * 10)).map (fun x => x / 10) = l := by
    intro l
    rw [List.map_map]
    have hfun : ((fun x : ℚ => x / 10) ∘ fun x : ℚ => x * 10) = id := by
      funext x
      exact mul_div_cancel_right₀ x (by norm_num)
    rw [hfun, List.map_id]
  refine ⟨rfl, rfl, ?_, ?_⟩
  · show (⟨(to_cm absorption_cm).shape, (to_cm absorption_cm).data.map (fun x => x / 10)⟩ :
      NpArray) = absorption_cm
    rw [to_cm]
    exact congrArg (NpArray.mk absorption_cm.shape) (hround absorption_cm.data)
  · show (⟨(to_cm scattering_cm).shape, (to_cm scattering_cm).data.map (fun x => x / 10)⟩ :
      NpArray) = scattering_cm
    rw [to_cm]
    exact congrArg (NpArray.mk scattering_cm.shape) (hround scattering_cm.data)

/-- C6: `parse_pmcx_results` rescales the 4-D flux by the fixed factor 100
(J/mm² to J/cm²) and drops the temporal axis exactly when it has one frame:
shape [d1, d2, d3, 1] becomes [d1, d2, d3] and any other extent is kept. -/
theorem parse_pmcx_results_rescale_and_squeeze (d1 d2 d3 d4 : Nat) (data : List ℚ) :
    parse_pmcx_results ⟨[d1, d2, d3, d4], data⟩ =
      Except.ok ⟨if d4 = 1 then [d1, d2, d3] else [d1, d2, d3, d4],
                 data.map (fun x => x * 100)⟩ := by
  by_cases h : d4 = 1 <;> simp [parse_pmcx_results, h, List.eraseIdx]

/-- `np.stack` raises its shape-mismatch `ValueError` when some array
disagrees with the first one's shape. -/
theorem npStack_mismatch (a : NpArray) (rest : List NpArray)
    (h : ¬ ∀ b ∈ rest, b.shape = a.shape) :
    npStack (a :: rest) = Except.error "all input arrays must have the same shape" := by
  have hall : (rest.all fun b => decide (b.shape = a.shape)) = false := by
    by_contra hc
    rw [Bool.not_eq_false] at hc
    exact h fun b hb => by simpa using List.all_eq_true.mp hc b hb
  simp [npStack, hall]

/-- C8: whenever any two of the four property arrays have mismatched shapes,
`forward_model` fails with the shape-mismatch error raised while the
configuration is being built (by the array-stacking step), and the result
does not depend on the engine: the Monte-Carlo engine is never invoked. -/
theorem shape_mismatch_error_before_engine (engine : McxConfig → NpArray)
    (global_settings : McxGlobalSettings) (component_settings : McxComponentSettings)
    (source : IlluminatorDefinition)
    (absorption_cm scattering_cm anisotropy refractive_index : NpArray)
    (h : ¬ (scattering_cm.shape = absorption_cm.shape ∧
            anisotropy.shape = absorption_cm.shape ∧
            refractive_index.shape = absorption_cm.shape)) :
    forward_model engine global_settings component_settings source
        absorption_cm scattering_cm anisotropy refractive_index =
      Except.error "all input arrays must have the same shape" := by
  have hstack : npStack [⟨absorption_cm.shape, absorption_cm.data.map (fun x => x / 10)⟩,
      ⟨scattering_cm.shape, scattering_cm.data.map (fun x => x / 10)⟩,
      anisotropy, refractive_index] =
      Except.error "all input arrays must have the same shape" := by
    apply npStack_mismatch
    intro hc
    exact h ⟨hc ⟨scattering_cm.shape, scattering_cm.data.map (fun x => x / 10)⟩ (by simp),
             hc anisotropy (by simp), hc refractive_index (by simp)⟩
  simp only [forward_model, get_mcx_config, pre_process_volumes, volumes_to_mm, hstack]

/-- Witness for C8 at the spec's example shapes (4,4,4) versus (4,4,5). -/
theorem shape_mismatch_error_before_engine_witness :
    (¬ ((⟨[4, 4, 5], List.replicate 80 1⟩ : NpArray).shape =
          (⟨[4, 4, 4], List.replicate 64 1⟩ : NpArray).shape ∧
        (⟨[4, 4, 4], List.replicate 64 1⟩ : NpArray).shape =
          (⟨[4, 4, 4], List.replicate 64 1⟩ : NpArray).shape ∧
        (⟨[4, 4, 4], List.replicate 64 1⟩ : NpArray).shape =
          (⟨[4, 4, 4], List.replicate 64 1⟩ : NpArray).shape)) ∧
    forward_model (fun _ => ⟨[], []⟩) ⟨1/10, none⟩ ⟨1000, none, none, none⟩
        ⟨"pencilarray", [1, 1, 1], [0, 0, 1], [0, 0, 0, 0], [0, 0, 0, 0]⟩
        ⟨[4, 4, 4], List.replicate 64 1⟩ ⟨[4, 4, 5], List.replicate 80 1⟩
        ⟨[4, 4, 4], List.replicate 64 1⟩ ⟨[4, 4, 4], List.replicate 64 1⟩ =
      Except.error "all input arrays must have the same shape" :=
  ⟨by decide,
   shape_mismatch_error_before_engine (fun _ => ⟨[], []⟩) ⟨1/10, none⟩ ⟨1000, none, none, none⟩
     ⟨"pencilarray", [1, 1, 1], [0, 0, 1], [0, 0, 0, 0], [0, 0, 0, 0]⟩
     ⟨[4, 4, 4], List.replicate 64 1⟩ ⟨[4, 4, 5], List.replicate 80 1⟩
     ⟨[4, 4, 4], List.replicate 64 1⟩ ⟨[4, 4, 4], List.replicate 64 1⟩ (by decide)⟩

/-- C2 counterexample: with the unrecognized optical-model tag
"invalid_model", `run_optical_forward_model` is not rejected with a
configuration error before any computation: the persistence path derivation
runs, and only then does the call fail — with an `AttributeError` from
invoking `simulate` on the `None` adapter. -/
theorem unknown_optical_model_not_rejected_early_cex :
    (("invalid_model" ≠ OPTICAL_MODEL_MCXYZ) ∧ ("invalid_model" ≠ OPTICAL_MODEL_MCX) ∧
      ("invalid_model" ≠ OPTICAL_MODEL_TEST)) ∧
    run_optical_forward_model (fun _ => [1]) [1] [1]
        ⟨some "invalid_model", none, none⟩ =
      Except.error ([OptEvent.path_derivation], OptErrorKind.attributeError) :=
  ⟨by decide, by rfl⟩

/-- C2 amended: an unrecognized optical-model tag is not rejected before
computation starts; `run_optical_forward_model` derives the persistence path
and then fails with an `AttributeError` at the adapter invocation (the
selected implementation being `None`). -/
theorem unknown_optical_model_fails_at_adapter_call
    (simulateFluence : OpticalAdapter → List ℚ)
    (absorption gruneisen_parameter : List ℚ) (settings : OpticalSettings)
    (model : String) (hm : settings.optical_model = some model)
    (h1 : model ≠ OPTICAL_MODEL_MCXYZ) (h2 : model ≠ OPTICAL_MODEL_MCX)
    (h3 : model ≠ OPTICAL_MODEL_TEST) :
    run_optical_forward_model simulateFluence absorption gruneisen_parameter settings =
      Except.error ([OptEvent.path_derivation], OptErrorKind.attributeError) := by
  simp only [run_optical_forward_model, hm, if_neg h1, if_neg h2, if_neg h3]

/-- Witness for the amended C2 at the unknown tag "mcx2". -/
theorem unknown_optical_model_fails_at_adapter_call_witness :
    run_optical_forward_model (fun _ => [1]) [1] [1] ⟨some "mcx2", none, none⟩ =
      Except.error ([OptEvent.path_derivation], OptErrorKind.attributeError) :=
  unknown_optical_model_fails_at_adapter_call (fun _ => [1]) [1] [1]
    ⟨some "mcx2", none, none⟩ "mcx2" rfl (by decide) (by decide) (by decide)

/-- C3: the post-processor's unit mode and initial pressure as a function of
the (upsampling flag, pulse-energy presence) pair: upsampling true gives
ARBITRARY units with pressure absorption*fluence regardless of energy;
upsampling false (or absent) with energy present gives PHYSICAL_PRESSURE_PA
units with pressure absorption*fluence*gruneisen*(energy/1000)*1e6;
upsampling false (or absent) with energy absent gives ARBITRARY units with
pressure absorption*fluence; and at absorption=2, fluence=3,
gruneisen=0.005, energy=10 mJ, upsampling false the pressure is 300. -/
theorem unit_mode_and_initial_pressure_spec
    (simulateFluence : OpticalAdapter → List ℚ)
    (absorption gruneisen_parameter : List ℚ) (settings : OpticalSettings)
    (hm : settings.optical_model = some OPTICAL_MODEL_MCX) :
    (settings.perform_upsampling = some true →
      ∃ tr, run_optical_forward_model simulateFluence absorption gruneisen_parameter settings =
        Except.ok (tr, simulateFluence OpticalAdapter.mcx,
          npMul absorption (simulateFluence OpticalAdapter.mcx), UnitMode.ARBITRARY))
    ∧ (∀ energy : ℚ,
        (settings.perform_upsampling = none ∨ settings.perform_upsampling = some false) →
        settings.laser_pulse_energy_in_millijoule = some energy →
      ∃ tr, run_optical_forward_model simulateFluence absorption gruneisen_parameter settings =
        Except.ok (tr, simulateFluence OpticalAdapter.mcx,
          npScale 1000000 (npScale (energy / 1000)
            (npMul (npMul absorption (simulateFluence OpticalAdapter.mcx))
              gruneisen_parameter)),
          UnitMode.PHYSICAL_PRESSURE_PA))
    ∧ ((settings.perform_upsampling = none ∨ settings.perform_upsampling = some false) →
        settings.laser_pulse_energy_in_millijoule = none →
      ∃ tr, run_optical_forward_model simulateFluence absorption gruneisen_parameter settings =
        Except.ok (tr, simulateFluence OpticalAdapter.mcx,
          npMul absorption (simulateFluence OpticalAdapter.mcx), UnitMode.ARBITRARY))
    ∧ run_optical_forward_model (fun _ => [3]) [2] [1/200]
        ⟨some OPTICAL_MODEL_MCX, some false, some 10⟩ =
      Except.ok ([OptEvent.path_derivation, OptEvent.adapter_simulate OpticalAdapter.mcx,
                  OptEvent.persistence_read, OptEvent.persistence_write],
                 [3], [300], UnitMode.PHYSICAL_PRESSURE_PA) := by
  have hmcx : (OPTICAL_MODEL_MCX = OPTICAL_MODEL_MCXYZ) = False := by
    simp [OPTICAL_MODEL_MCX, OPTICAL_MODEL_MCXYZ]
  refine ⟨?_, ?_, ?_, ?_⟩
  · intro hu
    refine ⟨[OptEvent.path_derivation, OptEvent.adapter_simulate OpticalAdapter.mcx,
             OptEvent.persistence_read, OptEvent.persistence_write], ?_⟩
    simp [run_optical_forward_model, hm, hu, OPTICAL_MODEL_MCX, OPTICAL_MODEL_MCXYZ,
      OPTICAL_MODEL_TEST]
  · intro energy hu he
    refine ⟨[OptEvent.path_derivation, OptEvent.adapter_simulate OpticalAdapter.mcx,
             OptEvent.persistence_read, OptEvent.persistence_write], ?_⟩
    rcases hu with hu | hu <;>
      simp [run_optical_forward_model, hm, hu, he, OPTICAL_MODEL_MCX, OPTICAL_MODEL_MCXYZ,
        OPTICAL_MODEL_TEST]
  · intro hu he
    refine ⟨[OptEvent.path_derivation, OptEvent.adapter_simulate OpticalAdapter.mcx,
             OptEvent.persistence_read, OptEvent.persistence_write], ?_⟩
    rcases hu with hu | hu <;>
      simp [run_optical_forward_model, hm, hu, he, OPTICAL_MODEL_MCX, OPTICAL_MODEL_MCXYZ,
        OPTICAL_MODEL_TEST]
  · norm_num [run_optical_forward_model, npMul, npScale, List.zipWith, OPTICAL_MODEL_MCX,
      OPTICAL_MODEL_MCXYZ, OPTICAL_MODEL_TEST]
    rw [if_neg (show ¬ (("mcx" : String) = "mcxyz") by decide)]

/-- Witness for C3's energy-calibrated branch at the spec's example values:
units PHYSICAL_PRESSURE_PA and initial pressure 2*3*(1/200)*(10/1000)*1e6. -/
theorem unit_mode_and_initial_pressure_spec_witness :
    ∃ tr, run_optical_forward_model (fun _ => [3]) [2] [1/200]
        ⟨some OPTICAL_MODEL_MCX, some false, some 10⟩ =
      Except.ok (tr, (fun _ : OpticalAdapter => [(3 : ℚ)]) OpticalAdapter.mcx,
        npScale 1000000 (npScale ((10 : ℚ) / 1000)
          (npMul (npMul [2] ((fun _ : OpticalAdapter => [(3 : ℚ)]) OpticalAdapter.mcx))
            [1/200])),
        UnitMode.PHYSICAL_PRESSURE_PA) :=
  (unit_mode_and_initial_pressure_spec (fun _ => [3]) [2] [1/200]
    ⟨some OPTICAL_MODEL_MCX, some false, some 10⟩ rfl).2.1 10 (Or.inr rfl) rfl

end Simpa
